import Mathlib

/-!
# Verification of the grove-coder cost-governance core

Shallow embedding of the grove-coder request broker:
* `CostDatabase` — the SQLite cost ledger (`src/grove_coder/database.py`),
* `DeepSeekClient` — the upstream OpenRouter client (`src/grove_coder/deepseek.py`),
* `GroveCoderServer` — the MCP request broker (`src/grove_coder/server.py`).

Python floats are modelled as exact rationals (`ℚ`), SQLite timestamps as
natural numbers (seconds since the Unix epoch, UTC), and Python exceptions as
an explicit error type threaded through `Except`.  External effects (the HTTP
exchange, storage failure on append) are supplied as oracle parameters, so
every definition is executable on concrete inputs.
-/

/-! ## JSON values

Model of the Python objects produced by `json.loads` / consumed by
`json.dumps` (the `json` standard library, an external collaborator). -/

inductive Json where
  | null
  | bool (b : Bool)
  | num (q : ℚ)
  | str (s : String)
  | arr (xs : List Json)
  | obj (fields : List (String × Json))

/-- Association lookup in a decoded JSON object.  Python's `json.loads` keeps
the *last* occurrence of a duplicated key, so the lookup returns the last
binding. -/
def jlookup (fs : List (String × Json)) (key : String) : Option Json :=
  ((fs.filter (fun p => p.1 = key)).getLast?).map Prod.snd

/-! ## Python exceptions

The exception classes that can cross the function boundaries we verify.
`jsonDecodeError` models `json.JSONDecodeError`, which is a *subclass* of
`ValueError` in Python — this matters for the broker's
`except (ValueError, RuntimeError)` clause. -/

inductive PyErr where
  | valueError (msg : String)
  | runtimeError (msg : String)
  | jsonDecodeError (msg : String)
  | keyError (key : String)
  | indexError
  | typeError
  | attributeError
  | sqliteError (msg : String)
  deriving DecidableEq

/-- Does `except (ValueError, RuntimeError)` catch this exception?
(`json.JSONDecodeError` is a `ValueError` subclass.) -/
def PyErr.caughtByValueOrRuntime : PyErr → Bool
  | .valueError _ => true
  | .runtimeError _ => true
  | .jsonDecodeError _ => true
  | _ => false

/-- `str(e)` for the exceptions the broker renders into error payloads. -/
def PyErr.toMsg : PyErr → String
  | .valueError m => m
  | .runtimeError m => m
  | .jsonDecodeError m => m
  | .keyError k => k
  | .indexError => "list index out of range"
  | .typeError => "type error"
  | .attributeError => "attribute error"
  | .sqliteError m => m

/-! ## Rounding

`round(x, 6)` from Python, modelled in exact rational arithmetic: round to
the nearest multiple of `10⁻⁶`, ties to even (Python's banker's rounding). -/

/-- Nearest integer to `q`, ties to even. -/
def roundHalfEven (q : ℚ) : ℤ :=
  let f := q.num.fdiv q.den
  let r := q.num - f * (q.den : ℤ)
  if 2 * r < (q.den : ℤ) then f
  else if (q.den : ℤ) < 2 * r then f + 1
  else if f % 2 = 0 then f else f + 1

/-- `round(q, 6)`: round to six decimal places. -/
def round6 (q : ℚ) : ℚ := (roundHalfEven (q * 1000000) : ℚ) / 1000000

/-! ## The cost ledger (`database.py`)

One row of the `requests` table.  `id` is implicit: a record's position in
the list is its insertion order (SQLite `AUTOINCREMENT` assigns strictly
increasing ids).  `timestamp` is assigned by the store
(`DEFAULT CURRENT_TIMESTAMP`), modelled as an explicit `now` argument. -/

structure UsageRecord where
  timestamp : ℕ
  tool_name : String
  cost_usd : ℚ
  input_tokens : Json
  output_tokens : Json
  file_path : Option String

structure CostDatabase where
  requests : List UsageRecord := []

/-- The `tokens` dict argument of `log_request` (`dict[str, int]` at call
sites; values are JSON-decoded numbers coming from the upstream usage
block). -/
structure TokensDict where
  input : Option Json := none
  output : Option Json := none

def VALID_PERIODS : List String := ["today", "week", "month", "all"]

def SECONDS_PER_DAY : ℕ := 86400

namespace CostDatabase

/-- `log_request`: INSERT one row.  `tokens.get("input", 0)` /
`tokens.get("output", 0)`; the cost is stored exactly as passed (no
rounding at storage time). -/
def log_request (db : CostDatabase) (now : ℕ) (tool_name : String)
    (cost_usd : ℚ) (tokens : TokensDict) (file_path : Option String := none) :
    CostDatabase :=
  { requests := db.requests ++
      [{ timestamp := now, tool_name := tool_name, cost_usd := cost_usd,
         input_tokens := tokens.input.getD (.num 0),
         output_tokens := tokens.output.getD (.num 0),
         file_path := file_path }] }

/-- The window start computed by the `if period == ...` chain.  "today" is
start of the current day, "week"/"month" are trailing 7/30 days, "all" is
the epoch floor `datetime(1970, 1, 1)` (0 in this model). -/
def startDate (now : ℕ) (period : String) : ℕ :=
  if period = "today" then (now / SECONDS_PER_DAY) * SECONDS_PER_DAY
  else if period = "week" then now - 7 * SECONDS_PER_DAY
  else if period = "month" then now - 30 * SECONDS_PER_DAY
  else 0

/-- `date(timestamp)`: the calendar day of a record, as a day index. -/
def recordKey (r : UsageRecord) : ℕ × String :=
  (r.timestamp / SECONDS_PER_DAY, r.tool_name)

/-- One row of the `GROUP BY date(timestamp), tool_name` query result:
`(date, tool_name, COUNT(*), SUM(cost_usd))`. -/
structure GroupRow where
  date : ℕ
  tool : String
  requests : ℕ
  cost : ℚ

/-- The grouped query result, ordered by date descending (`ORDER BY date
DESC`; the order of ties is unspecified by SQL — the model uses a stable
insertion sort over first-occurrence key order). -/
def groupRows (l : List UsageRecord) : List GroupRow :=
  let keys := List.insertionSort (fun a b : ℕ × String => b.1 ≤ a.1)
    ((l.map recordKey).dedup)
  keys.map (fun k =>
    let grp := l.filter (fun r => decide (recordKey r = k))
    { date := k.1, tool := k.2, requests := grp.length,
      cost := (grp.map (·.cost_usd)).sum })

/-- One entry of the report's `breakdown` list. -/
structure BreakdownRow where
  date : ℕ
  tool : String
  requests : ℕ
  cost_usd : ℚ

structure Report where
  total_requests : ℕ
  total_cost_usd : ℚ
  breakdown : List BreakdownRow

/-- The `AND tool_name = ?` clause: `if tool_filter:` — a `None` or
empty-string filter is falsy, so the clause is not added. -/
def matchesFilter (tool_filter : Option String) (r : UsageRecord) : Bool :=
  match tool_filter with
  | some t => if t = "" then true else r.tool_name = t
  | none => true

/-- The rows selected by `WHERE timestamp >= ?` (plus the optional tool
clause). -/
def filteredRecords (db : CostDatabase) (now : ℕ) (period : String)
    (tool_filter : Option String) : List UsageRecord :=
  db.requests.filter (fun r =>
    decide (startDate now period ≤ r.timestamp) && matchesFilter tool_filter r)

/-- `get_report(period, tool_filter)`: validates the period against
`VALID_PERIODS` (raising `ValueError` before any store access), then
aggregates records with `timestamp >= start` grouped by `(date, tool)`.
Sums are rounded to six decimals at reporting time only. -/
def get_report (db : CostDatabase) (now : ℕ) (period : String)
    (tool_filter : Option String := none) : Except PyErr Report :=
  if period ∈ VALID_PERIODS then
    let rows := groupRows (filteredRecords db now period tool_filter)
    .ok { total_requests := (rows.map (·.requests)).sum,
          total_cost_usd := round6 ((rows.map (·.cost)).sum),
          breakdown := rows.map (fun g =>
            { date := g.date, tool := g.tool, requests := g.requests,
              cost_usd := round6 g.cost }) }
  else
    .error (.valueError
      ("Invalid period \x27" ++ period ++ "\x27. Must be one of: today, week, month, all"))

/-- `check_cost_limit(period, limit_usd)`: `True` iff the report's total is
strictly below the limit. -/
def check_cost_limit (db : CostDatabase) (now : ℕ) (period : String)
    (limit_usd : ℚ) : Except PyErr Bool :=
  match get_report db now period with
  | .ok report => .ok (decide (report.total_cost_usd < limit_usd))
  | .error e => .error e

end CostDatabase

/-! ## A JSON text parser

Modelled from the Python `json` standard library (an external collaborator):
`json.loads` decodes a string to a value or raises `json.JSONDecodeError`.
The model supports the full JSON grammar except `\uXXXX` string escapes
(inputs using them are treated as undecodable; no verified property depends
on them). -/

def skipWs : List Char → List Char
  | c :: cs => if c = ' ' ∨ c = '\n' ∨ c = '\t' ∨ c = '\r' then skipWs cs else c :: cs
  | [] => []

/-- Parse the body of a string literal (after the opening quote), handling
the single-character escapes. -/
def parseStrBody : List Char → List Char → Option (String × List Char)
  | [], _ => none
  | c :: cs, acc =>
    if c = '"' then some (String.mk acc.reverse, cs)
    else if c = '\\' then
      match cs with
      | [] => none
      | e :: cs' =>
        if e = '"' then parseStrBody cs' ('"' :: acc)
        else if e = '\\' then parseStrBody cs' ('\\' :: acc)
        else if e = '/' then parseStrBody cs' ('/' :: acc)
        else if e = 'n' then parseStrBody cs' ('\n' :: acc)
        else if e = 't' then parseStrBody cs' ('\t' :: acc)
        else if e = 'r' then parseStrBody cs' ('\r' :: acc)
        else if e = 'b' then parseStrBody cs' ('\x08' :: acc)
        else if e = 'f' then parseStrBody cs' ('\x0c' :: acc)
        else none
    else parseStrBody cs (c :: acc)

/-- Split a leading run of decimal digits from the input. -/
def parseDigits : List Char → List Char × List Char
  | [] => ([], [])
  | c :: cs =>
    if c.isDigit then
      let p := parseDigits cs
      (c :: p.1, p.2)
    else ([], c :: cs)

def digitsToNat (ds : List Char) : ℕ :=
  ds.foldl (fun n c => 10 * n + (c.toNat - 48)) 0

/-- Parse a JSON number (after an optional leading minus, which the caller
strips): integer part, optional fraction, optional exponent. -/
def parseNumAfterSign (neg : Bool) (cs : List Char) : Option (ℚ × List Char) :=
  let ip := parseDigits cs
  if ip.1 = [] then none
  else
    let intPart : ℚ := (digitsToNat ip.1 : ℚ)
    let afterFrac : Option (ℚ × List Char) :=
      match ip.2 with
      | '.' :: cs' =>
        let fp := parseDigits cs'
        if fp.1 = [] then none
        else some (intPart + (digitsToNat fp.1 : ℚ) / ((10 : ℚ) ^ fp.1.length), fp.2)
      | rest => some (intPart, rest)
    match afterFrac with
    | none => none
    | some (mant, rest) =>
      let applySign : ℚ → ℚ := fun q => if neg then -q else q
      match rest with
      | 'e' :: cs' | 'E' :: cs' =>
        let expPart : Option (Bool × List Char) :=
          match cs' with
          | '-' :: cs'' => some (true, cs'')
          | '+' :: cs'' => some (false, cs'')
          | cs'' => some (false, cs'')
        match expPart with
        | none => none
        | some (eneg, cs'') =>
          let ep := parseDigits cs''
          if ep.1 = [] then none
          else
            let e := digitsToNat ep.1
            some (applySign (if eneg then mant / ((10 : ℚ) ^ e) else mant * ((10 : ℚ) ^ e)), ep.2)
      | _ => some (applySign mant, rest)

mutual

/-- Parse one JSON value.  `fuel` bounds nesting depth; `parseJson` supplies
fuel exceeding the input length, so genuine inputs never exhaust it. -/
def parseVal : ℕ → List Char → Option (Json × List Char)
  | 0, _ => none
  | fuel + 1, cs₀ =>
    match skipWs cs₀ with
    | [] => none
    | 'n' :: 'u' :: 'l' :: 'l' :: rest => some (.null, rest)
    | 't' :: 'r' :: 'u' :: 'e' :: rest => some (.bool true, rest)
    | 'f' :: 'a' :: 'l' :: 's' :: 'e' :: rest => some (.bool false, rest)
    | '"' :: rest =>
      match parseStrBody rest [] with
      | some (s, rest') => some (.str s, rest')
      | none => none
    | '[' :: rest =>
      (match skipWs rest with
       | ']' :: rest' => some (.arr [], rest')
       | _ => parseElems fuel rest)
    | '\x7b' :: rest =>
      (match skipWs rest with
       | '\x7d' :: rest' => some (.obj [], rest')
       | _ => parseMembers fuel rest)
    | '-' :: rest =>
      match parseNumAfterSign true rest with
      | some (q, rest') => some (.num q, rest')
      | none => none
    | c :: rest =>
      if c.isDigit then
        match parseNumAfterSign false (c :: rest) with
        | some (q, rest') => some (.num q, rest')
        | none => none
      else none

/-- Parse the comma-separated elements of a non-empty array, up to `]`. -/
def parseElems : ℕ → List Char → Option (Json × List Char)
  | 0, _ => none
  | fuel + 1, cs => do
    let (v, rest) ← parseVal fuel cs
    match skipWs rest with
    | ',' :: rest' =>
      match parseElems fuel rest' with
      | some (.arr vs, rest'') => some (.arr (v :: vs), rest'')
      | _ => none
    | ']' :: rest' => some (.arr [v], rest')
    | _ => none

/-- Parse the comma-separated members of a non-empty object, up to `}`. -/
def parseMembers : ℕ → List Char → Option (Json × List Char)
  | 0, _ => none
  | fuel + 1, cs =>
    match skipWs cs with
    | '"' :: rest => do
      let (k, rest₁) ← parseStrBody rest []
      match skipWs rest₁ with
      | ':' :: rest₂ => do
        let (v, rest₃) ← parseVal fuel rest₂
        match skipWs rest₃ with
        | ',' :: rest₄ =>
          match parseMembers fuel rest₄ with
          | some (.obj ms, rest₅) => some (.obj ((k, v) :: ms), rest₅)
          | _ => none
        | '\x7d' :: rest₄ => some (.obj [(k, v)], rest₄)
        | _ => none
      | _ => none
    | _ => none

end

/-- `json.loads`: parse a complete JSON document (trailing whitespace only),
or fail as `json.JSONDecodeError` does. -/
def parseJson (s : String) : Option Json :=
  match parseVal (s.length + 1) s.data with
  | some (j, rest) => if skipWs rest = [] then some j else none
  | none => none

/-! ## The upstream client (`deepseek.py`) -/

/-- The pre-resolved configuration dict handed to the client and server
(`secrets`); `none` models an absent key. -/
structure CostLimits where
  daily_usd : Option ℚ := none
  monthly_usd : Option ℚ := none

structure Secrets where
  openrouter_api_key : Option String := none
  worker_model : Option String := none
  zdr_enabled : Option Bool := none
  preferred_providers : Option (List String) := none
  cost_limits : Option CostLimits := none

/-- The tool-call `arguments` dict; `none` models an absent key. -/
structure Args where
  file_path : Option String := none
  task_description : Option String := none
  language : Option String := none
  context : Option String := none
  original_code : Option String := none
  change_request : Option String := none
  code : Option String := none
  focus_areas : Option (List String) := none

def MAX_CODE_LENGTH : ℕ := 100000

def MAX_DESCRIPTION_LENGTH : ℕ := 10000

/-- Outcome of the single outbound HTTP exchange, supplied as an oracle:
either no response was received (`httpx.RequestError`) or a response with a
status code and a raw body arrived. -/
inductive NetOutcome where
  | requestError
  | response (status : ℕ) (body : String)

namespace DeepSeekClient

/-- `value = arguments.get(key, ""); if value and len(value) > max: ...` —
an absent key or an empty string is falsy and skipped. -/
def fieldTooLong (v : Option String) (maxLen : ℕ) : Bool :=
  let s := v.getD ""
  decide (s ≠ "" ∧ maxLen < s.length)

/-- `_validate_inputs`: size limits checked field by field, in source
order; the first oversized field raises `ValueError` naming the field and
its class limit. -/
def _validate_inputs (arguments : Args) : Except PyErr Unit :=
  if fieldTooLong arguments.code MAX_CODE_LENGTH then
    .error (.valueError ("code exceeds maximum length of " ++
      toString MAX_CODE_LENGTH ++ " characters"))
  else if fieldTooLong arguments.original_code MAX_CODE_LENGTH then
    .error (.valueError ("original_code exceeds maximum length of " ++
      toString MAX_CODE_LENGTH ++ " characters"))
  else if fieldTooLong arguments.context MAX_CODE_LENGTH then
    .error (.valueError ("context exceeds maximum length of " ++
      toString MAX_CODE_LENGTH ++ " characters"))
  else if fieldTooLong arguments.task_description MAX_DESCRIPTION_LENGTH then
    .error (.valueError ("task_description exceeds maximum length of " ++
      toString MAX_DESCRIPTION_LENGTH ++ " characters"))
  else if fieldTooLong arguments.change_request MAX_DESCRIPTION_LENGTH then
    .error (.valueError ("change_request exceeds maximum length of " ++
      toString MAX_DESCRIPTION_LENGTH ++ " characters"))
  else .ok ()

def GENERATE_SYSTEM_PROMPT (language : String) : String :=
  "You are a code generation specialist. Write clean, working code.\n\n" ++
  "RULES:\n" ++
  "1. Return ONLY a JSON object with keys \"code\" and \"explanation\"\n" ++
  "2. Code must be complete, runnable, and follow best practices for " ++ language ++ "\n" ++
  "3. Explanation must be brief (1-2 sentences) describing key decisions\n" ++
  "4. No markdown formatting, no code fences, no prose outside JSON\n" ++
  "5. If unsure, make reasonable assumptions and document in explanation\n\n" ++
  "OUTPUT FORMAT:\n\x7b\"code\": \"...\", \"explanation\": \"...\"\x7d"

def EDIT_SYSTEM_PROMPT : String :=
  "You are a code editing specialist. Modify existing code as requested.\n\n" ++
  "RULES:\n" ++
  "1. Return ONLY a JSON object with keys \"code\" and \"explanation\"\n" ++
  "2. The \"code\" field must contain the complete modified code\n" ++
  "3. Preserve the original code\x27s style and conventions\n" ++
  "4. Explanation must be brief (1-2 sentences) describing what changed\n" ++
  "5. No markdown formatting, no code fences, no prose outside JSON\n\n" ++
  "OUTPUT FORMAT:\n\x7b\"code\": \"...\", \"explanation\": \"...\"\x7d"

def REVIEW_SYSTEM_PROMPT (focus_areas : String) : String :=
  "You are a code reviewer. Analyze the provided code for issues.\n\n" ++
  "Focus areas: " ++ focus_areas ++ "\n\n" ++
  "Return JSON with:\n" ++
  "- \"code\": (original code unchanged)\n" ++
  "- \"explanation\": summary of findings\n" ++
  "- \"suggestions\": array of specific improvements"

/-- `_get_system_prompt`: never raises (all argument reads use defaults). -/
def _get_system_prompt (tool_name : String) (arguments : Args) : String :=
  if tool_name = "generate_code" then
    GENERATE_SYSTEM_PROMPT (arguments.language.getD "python")
  else if tool_name = "edit_code" then
    EDIT_SYSTEM_PROMPT
  else if tool_name = "review_code" then
    REVIEW_SYSTEM_PROMPT (String.intercalate ", "
      (arguments.focus_areas.getD ["performance", "security", "readability"]))
  else
    "You are a helpful coding assistant."

/-- `json.dumps(arguments)` in `_build_user_prompt`'s fallback branch.  The
broker only dispatches the three known tool names to the client, so this
branch is unreachable in every verified property; the model renders the
present fields in declaration order (Python's dict order is the caller's
insertion order, which the embedding does not track). -/
def dumpsArguments (a : Args) : String :=
  let strField : String → Option String → List String := fun k v =>
    match v with
    | some s => ["\"" ++ k ++ "\": \"" ++ s ++ "\""]
    | none => []
  let listField : String → Option (List String) → List String := fun k v =>
    match v with
    | some l => ["\"" ++ k ++ "\": [" ++
        String.intercalate ", " (l.map (fun s => "\"" ++ s ++ "\"")) ++ "]"]
    | none => []
  "\x7b" ++ String.intercalate ", "
    (strField "file_path" a.file_path ++ strField "task_description" a.task_description ++
     strField "language" a.language ++ strField "context" a.context ++
     strField "original_code" a.original_code ++ strField "change_request" a.change_request ++
     strField "code" a.code ++ listField "focus_areas" a.focus_areas) ++ "\x7d"

/-- `_build_user_prompt`: deterministic string assembly.  A `KeyError` is
raised when a required argument (`arguments['...']`) is absent; optional
arguments are read with truthiness checks (absent or empty is skipped). -/
def _build_user_prompt (arguments : Args) (tool_name : String) :
    Except PyErr String :=
  if tool_name = "generate_code" then
    match arguments.task_description with
    | none => .error (.keyError "task_description")
    | some td =>
      let parts := ["Task: " ++ td, "Language: " ++ arguments.language.getD "python"]
      let parts := parts ++
        (match arguments.file_path with
         | some fp => if fp ≠ "" then ["Target file: " ++ fp] else []
         | none => [])
      let parts := parts ++
        (match arguments.context with
         | some ctx => if ctx ≠ "" then ["Context:\n" ++ ctx] else []
         | none => [])
      .ok (String.intercalate "\n" parts)
  else if tool_name = "edit_code" then
    match arguments.original_code with
    | none => .error (.keyError "original_code")
    | some oc =>
      match arguments.change_request with
      | none => .error (.keyError "change_request")
      | some cr =>
        let parts := ["Original code:\n```\n" ++ oc ++ "\n```",
                      "Change request: " ++ cr,
                      "Language: " ++ arguments.language.getD "python"]
        let parts := parts ++
          (match arguments.file_path with
           | some fp => if fp ≠ "" then ["File: " ++ fp] else []
           | none => [])
        .ok (String.intercalate "\n" parts)
  else if tool_name = "review_code" then
    match arguments.code with
    | none => .error (.keyError "code")
    | some c =>
      let parts := ["Code to review:\n```\n" ++ c ++ "\n```"]
      let parts := parts ++
        (match arguments.focus_areas with
         | some fa => if fa ≠ [] then ["Focus on: " ++ String.intercalate ", " fa] else []
         | none => [])
      .ok (String.intercalate "\n" parts)
  else
    .ok (dumpsArguments arguments)

/-- Python subscripting `data[key]` with a string key: dicts look the key
up (`KeyError` when absent), everything else raises `TypeError`. -/
def jsonGetKey : Json → String → Except PyErr Json
  | .obj fs, key =>
    match jlookup fs key with
    | some v => .ok v
    | none => .error (.keyError key)
  | _, _ => .error .typeError

/-- Python subscripting `x[0]`: lists and strings index (raising
`IndexError` when empty), dicts raise `KeyError` (JSON-decoded dicts have
only string keys), everything else raises `TypeError`. -/
def jsonIndexZero : Json → Except PyErr Json
  | .arr [] => .error .indexError
  | .arr (x :: _) => .ok x
  | .str s =>
    match s.data with
    | [] => .error .indexError
    | c :: _ => .ok (.str (String.mk [c]))
  | .obj _ => .error (.keyError "0")
  | _ => .error .typeError

/-- `data["choices"][0]["message"]["content"]`. -/
def extractContent (data : Json) : Except PyErr Json := do
  let choices ← jsonGetKey data "choices"
  let c0 ← jsonIndexZero choices
  let msg ← jsonGetKey c0 "message"
  jsonGetKey msg "content"

/-- The `try: raw_content = ...; content = json.loads(raw_content)` block:
`KeyError`, `IndexError` and `json.JSONDecodeError` are converted to
`RuntimeError("DeepSeek returned an unparseable response")`; any other
exception (e.g. `TypeError` from `json.loads` on a non-string) escapes. -/
def parseContent (data : Json) : Except PyErr Json :=
  let attempt : Except PyErr Json := do
    let raw ← extractContent data
    match raw with
    | .str s =>
      match parseJson s with
      | some c => .ok c
      | none => .error (.jsonDecodeError "Expecting value")
    | _ => .error .typeError
  match attempt with
  | .error (.keyError _) => .error (.runtimeError "DeepSeek returned an unparseable response")
  | .error .indexError => .error (.runtimeError "DeepSeek returned an unparseable response")
  | .error (.jsonDecodeError _) => .error (.runtimeError "DeepSeek returned an unparseable response")
  | r => r

/-- A JSON value used as a number by Python arithmetic: ints and floats
directly, bools as 0/1; anything else raises `TypeError`. -/
def jsonToNumber : Json → Except PyErr ℚ
  | .num q => .ok q
  | .bool b => .ok (if b then 1 else 0)
  | _ => .error .typeError

/-- `usage.get(key, 0)` — `AttributeError` when `usage` is not a dict. -/
def usageGet (usage : Json) (key : String) : Except PyErr Json :=
  match usage with
  | .obj fs => .ok ((jlookup fs key).getD (.num 0))
  | _ => .error .attributeError

/-- `_calculate_cost`: DeepSeek V3.2 pricing via OpenRouter, $0.25/M input
tokens and $0.38/M output tokens, rounded once to six decimal places. -/
def _calculate_cost (usage : Json) : Except PyErr ℚ := do
  let input_tokens ← usageGet usage "prompt_tokens" >>= jsonToNumber
  let output_tokens ← usageGet usage "completion_tokens" >>= jsonToNumber
  let input_cost := input_tokens / 1000000 * (0.25 : ℚ)
  let output_cost := output_tokens / 1000000 * (0.38 : ℚ)
  .ok (round6 (input_cost + output_cost))

structure TokensUsed where
  input : Json
  output : Json

/-- The normalized result dict returned by a successful `call`. -/
structure CallResult where
  code : Json
  explanation : Json
  suggestions : Json
  cost_usd : ℚ
  tokens_used : TokensUsed

/-- `data.get("usage", {})` — `data` is always a dict when this runs (the
envelope extraction succeeded), so the non-dict case is unreachable. -/
def dataGetUsage : Json → Json
  | .obj fs => (jlookup fs "usage").getD (.obj [])
  | _ => .obj []

/-- `DeepSeekClient.call`: validate inputs, build the prompts, perform the
single HTTP exchange (the oracle `net`), check the status, decode the body,
extract and decode the model's JSON content, compute the cost, and return
the normalized result.  `content.get(...)` raises `AttributeError` when the
decoded content is not a dict. -/
def call (net : NetOutcome) (arguments : Args) (tool_name : String) :
    Except PyErr CallResult := do
  _validate_inputs arguments
  let _system_prompt := _get_system_prompt tool_name arguments
  let _user_prompt ← _build_user_prompt arguments tool_name
  match net with
  | .requestError => .error (.runtimeError "Failed to connect to OpenRouter API")
  | .response status body =>
    if status < 200 ∨ 300 ≤ status then
      .error (.runtimeError ("OpenRouter API returned " ++ toString status))
    else
      match parseJson body with
      | none => .error (.jsonDecodeError "Expecting value")
      | some data => do
        let content ← parseContent data
        let usage := dataGetUsage data
        let cost ← _calculate_cost usage
        match content with
        | .obj cfs => do
          let pt ← usageGet usage "prompt_tokens"
          let ct ← usageGet usage "completion_tokens"
          .ok { code := (jlookup cfs "code").getD (.str ""),
                explanation := (jlookup cfs "explanation").getD (.str ""),
                suggestions := (jlookup cfs "suggestions").getD (.arr []),
                cost_usd := cost,
                tokens_used := { input := pt, output := ct } }
        | _ => .error .attributeError

end DeepSeekClient

/-! ## The request broker (`server.py`) -/

/-- The MCP tool declarations (`_build_tool_list`): names, schema property
names, and the schema's `required` list. -/
structure ToolSpec where
  name : String
  properties : List String
  required : List String

def _build_tool_list : List ToolSpec :=
  [{ name := "generate_code",
     properties := ["file_path", "task_description", "language", "context"],
     required := ["task_description", "language"] },
   { name := "edit_code",
     properties := ["file_path", "original_code", "change_request", "language"],
     required := ["original_code", "change_request", "language"] },
   { name := "review_code",
     properties := ["code", "focus_areas"],
     required := ["code"] },
   { name := "get_cost_report",
     properties := ["period", "tool"],
     required := ["period"] }]

namespace GroveCoderServer

/-- `secrets.get("cost_limits", {}).get("daily_usd", 10.0)`. -/
def dailyLimit (secrets : Secrets) : ℚ :=
  ((secrets.cost_limits.getD {}).daily_usd).getD 10

/-- `secrets.get("cost_limits", {}).get("monthly_usd", 50.0)`. -/
def monthlyLimit (secrets : Secrets) : ℚ :=
  ((secrets.cost_limits.getD {}).monthly_usd).getD 50

/-- The success payload `json.dumps(result)`. -/
def resultToJson (r : DeepSeekClient.CallResult) : Json :=
  .obj [("code", r.code), ("explanation", r.explanation),
        ("suggestions", r.suggestions), ("cost_usd", .num r.cost_usd),
        ("tokens_used", .obj [("input", r.tokens_used.input),
                              ("output", r.tokens_used.output)])]

/-- The report payload `json.dumps(report)`.  SQL renders each breakdown
date as a `YYYY-MM-DD` string; the model's day index stands in for that
label. -/
def reportToJson (rep : CostDatabase.Report) : Json :=
  .obj [("total_requests", .num rep.total_requests),
        ("total_cost_usd", .num rep.total_cost_usd),
        ("breakdown", .arr (rep.breakdown.map (fun b =>
          .obj [("date", .str (toString b.date)), ("tool", .str b.tool),
                ("requests", .num b.requests), ("cost_usd", .num b.cost_usd)])))]

/-- `_handle_deepseek_call`: daily admission check, then monthly, then the
upstream call (`except (ValueError, RuntimeError)` converted to an error
payload), then the ledger append and the success payload.  A `.ok` result
carries the response payload and the ledger state after the call; a
`.error` is an exception escaping the handler uncaught.  `appendFails` is
the storage oracle: when true, the `log_request` INSERT raises
`sqlite3.Error`. -/
def _handle_deepseek_call (secrets : Secrets) (db : CostDatabase) (now : ℕ)
    (net : NetOutcome) (appendFails : Bool) (tool_name : String)
    (arguments : Args) : Except PyErr (Json × CostDatabase) := do
  let daily_limit := dailyLimit secrets
  let monthly_limit := monthlyLimit secrets
  let okToday ← CostDatabase.check_cost_limit db now "today" daily_limit
  if okToday = false then
    .ok (.obj [("error", .str "Daily cost limit exceeded"),
               ("limit_usd", .num daily_limit)], db)
  else do
    let okMonth ← CostDatabase.check_cost_limit db now "month" monthly_limit
    if okMonth = false then
      .ok (.obj [("error", .str "Monthly cost limit exceeded"),
                 ("limit_usd", .num monthly_limit)], db)
    else
      match DeepSeekClient.call net arguments tool_name with
      | .error e =>
        if e.caughtByValueOrRuntime then
          .ok (.obj [("error", .str e.toMsg)], db)
        else
          .error e
      | .ok result =>
        if appendFails then
          .error (.sqliteError "unable to write to the requests table")
        else
          .ok (resultToJson result,
               db.log_request now tool_name result.cost_usd
                 { input := some result.tokens_used.input,
                   output := some result.tokens_used.output }
                 arguments.file_path)

/-- The `get_cost_report` arguments dict. -/
structure ReportArgs where
  period : Option String := none
  tool : Option String := none

/-- `_handle_cost_report`: `arguments.get("period", "today")`, then the
report query.  There is no `try` here: a `ValueError` from `get_report`
escapes the handler uncaught. -/
def _handle_cost_report (db : CostDatabase) (now : ℕ) (arguments : ReportArgs) :
    Except PyErr Json := do
  let period := arguments.period.getD "today"
  let tool_filter := arguments.tool
  let report ← CostDatabase.get_report db now period tool_filter
  .ok (reportToJson report)

end GroveCoderServer

section Probe

example : CostDatabase.get_report {} 0 "all" none =
    .ok { total_requests := 0, total_cost_usd := 0, breakdown := [] } := by
  with_unfolding_all rfl

example : CostDatabase.check_cost_limit {} 0 "today" 10 = .ok true := by
  with_unfolding_all rfl

example : ∃ e, CostDatabase.get_report {} 0 "decade" none = .error e := by
  exact ⟨_, rfl⟩

example : parseJson "not valid json" = none := by with_unfolding_all rfl

example : parseJson "\x7b\"a\": [1, 2.5, -3e2], \"b\": \x7d\x7d" = none ∧
  parseJson "\x7b\"a\": [1, 2.5, -3e2], \"b\": \x7b\x7d\x7d" =
    some (.obj [("a", .arr [.num 1, .num (5/2), .num (-300)]), ("b", .obj [])]) := by
  constructor <;> with_unfolding_all rfl

-- cost at 1M + 1M tokens
example : DeepSeekClient._calculate_cost
    (.obj [("prompt_tokens", .num 1000000), ("completion_tokens", .num 1000000)]) =
    .ok (63/100) := by with_unfolding_all rfl

example : DeepSeekClient._calculate_cost (.obj []) = .ok 0 := by with_unfolding_all rfl

-- a successful call whose content lacks "code"
example : DeepSeekClient.call
    (.response 200 "\x7b\"choices\": [\x7b\"message\": \x7b\"content\": \"\x7b\x7d\"\x7d\x7d]\x7d")
    { task_description := some "hi", language := some "python" } "generate_code" =
    .ok { code := .str "", explanation := .str "", suggestions := .arr [],
          cost_usd := 0, tokens_used := { input := .num 0, output := .num 0 } } := by
  with_unfolding_all rfl

-- unparseable content
example : DeepSeekClient.call
    (.response 200 "\x7b\"choices\": [\x7b\"message\": \x7b\"content\": \"not valid json\"\x7d\x7d]\x7d")
    { task_description := some "hi", language := some "python" } "generate_code" =
    .error (.runtimeError "DeepSeek returned an unparseable response") := by
  with_unfolding_all rfl

-- handler happy path on an empty ledger with default limits
example : GroveCoderServer._handle_deepseek_call {} {} 0
    (.response 200 "\x7b\"choices\": [\x7b\"message\": \x7b\"content\": \"\x7b\x7d\"\x7d\x7d], \"usage\": \x7b\"prompt_tokens\": 100, \"completion_tokens\": 50\x7d\x7d")
    false "generate_code" { task_description := some "hi", language := some "python" } =
    .ok (.obj [("code", .str ""), ("explanation", .str ""), ("suggestions", .arr []),
               ("cost_usd", .num (44/1000000)),
               ("tokens_used", .obj [("input", .num 100), ("output", .num 50)])],
         { requests := [{ timestamp := 0, tool_name := "generate_code",
                          cost_usd := 44/1000000, input_tokens := .num 100,
                          output_tokens := .num 50, file_path := none }] }) := by
  with_unfolding_all rfl

-- invalid window escapes the report handler
example : GroveCoderServer._handle_cost_report {} 0 { period := some "decade" } =
    .error (.valueError "Invalid period \x27decade\x27. Must be one of: today, week, month, all") := by
  with_unfolding_all rfl

-- omitted period defaults to today
example : ∃ j, GroveCoderServer._handle_cost_report {} 0 {} = .ok j := ⟨_, by with_unfolding_all rfl⟩

end Probe

/-! ## Aggregation lemmas

The SQL `GROUP BY (date, tool)` rows partition the filtered records, so the
report's total (a sum of per-group sums) equals the plain sum over the
filtered records, and likewise for the counts. -/

theorem sum_map_filter_add_filter_not {α M : Type} [AddCommMonoid M]
    (p : α → Bool) (f : α → M) (l : List α) :
    ((l.filter p).map f).sum + ((l.filter (fun a => !p a)).map f).sum =
      (l.map f).sum := by
  induction l with
  | nil => simp
  | cons a t ih =>
    by_cases h : p a
    · simp only [List.filter_cons, h, if_pos, List.map_cons, List.sum_cons,
        Bool.not_true, if_neg, Bool.false_eq_true, not_false_iff]
      rw [add_assoc, ih]
    · simp only [List.filter_cons, h, Bool.not_false, if_pos, if_neg,
        Bool.false_eq_true, not_false_iff, List.map_cons, List.sum_cons]
      rw [add_left_comm, ih]

theorem sum_map_partition {α κ M : Type} [DecidableEq κ] [AddCommMonoid M]
    (key : α → κ) (f : α → M) :
    ∀ (keys : List κ) (l : List α), keys.Nodup → (∀ a ∈ l, key a ∈ keys) →
      (keys.map (fun k =>
        ((l.filter (fun a => decide (key a = k))).map f).sum)).sum =
      (l.map f).sum := by
  intro keys
  induction keys with
  | nil =>
    intro l _ hcov
    have hl : l = [] := by
      cases l with
      | nil => rfl
      | cons a t => exact absurd (hcov a (List.mem_cons_self a t)) (List.not_mem_nil _)
    simp [hl]
  | cons k ks ih =>
    intro l hnd hcov
    have hk : k ∉ ks := (List.nodup_cons.mp hnd).1
    have hnd' : ks.Nodup := (List.nodup_cons.mp hnd).2
    have hcov' : ∀ a ∈ l.filter (fun a => !decide (key a = k)), key a ∈ ks := by
      intro a ha
      have hmem := (List.mem_filter.mp ha).1
      have hne : ¬ key a = k := by
        have := (List.mem_filter.mp ha).2
        simpa using this
      cases List.mem_cons.mp (hcov a hmem) with
      | inl h => exact absurd h hne
      | inr h => exact h
    have hterm : ∀ k' ∈ ks,
        ((l.filter (fun a => !decide (key a = k))).filter
          (fun a => decide (key a = k'))) =
        l.filter (fun a => decide (key a = k')) := by
      intro k' hk'
      rw [List.filter_filter]
      apply List.filter_congr
      intro a _
      by_cases h : key a = k'
      · have hne : ¬ k' = k := by
          rintro rfl
          exact hk hk'
        have hne2 : ¬ key a = k := fun hh => hne (h ▸ hh)
        simp [h, hne, hne2]
      · simp [h]
    have hmapeq : ks.map (fun k' =>
        ((l.filter (fun a => decide (key a = k'))).map f).sum) =
        ks.map (fun k' =>
        (((l.filter (fun a => !decide (key a = k))).filter
          (fun a => decide (key a = k'))).map f).sum) := by
      apply List.map_congr_left
      intro k' hk'
      rw [hterm k' hk']
    rw [List.map_cons, List.sum_cons, hmapeq,
      ih (l.filter (fun a => !decide (key a = k))) hnd' hcov',
      sum_map_filter_add_filter_not (fun a => decide (key a = k)) f l]

theorem sum_map_one {α : Type} (l : List α) :
    (l.map (fun _ => (1 : ℕ))).sum = l.length := by
  induction l with
  | nil => rfl
  | cons a t ih => simp [ih, Nat.add_comm]

theorem length_filter_partition {α κ : Type} [DecidableEq κ]
    (key : α → κ) (keys : List κ) (l : List α) (hnd : keys.Nodup)
    (hcov : ∀ a ∈ l, key a ∈ keys) :
    (keys.map (fun k =>
      (l.filter (fun a => decide (key a = k))).length)).sum = l.length := by
  have h := sum_map_partition key (fun _ => (1 : ℕ)) keys l hnd hcov
  rw [sum_map_one] at h
  rw [← h]
  apply congrArg
  apply List.map_congr_left
  intro k _
  rw [sum_map_one]

namespace CostDatabase

theorem groupRows_cost_sum (l : List UsageRecord) :
    ((groupRows l).map (·.cost)).sum = (l.map (·.cost_usd)).sum := by
  unfold groupRows
  rw [List.map_map]
  have hperm : (List.insertionSort (fun a b : ℕ × String => b.1 ≤ a.1)
      ((l.map recordKey).dedup)).Perm ((l.map recordKey).dedup) :=
    List.perm_insertionSort _ _
  have hsum := (hperm.map (fun k =>
    ((l.filter (fun r => decide (recordKey r = k))).map (·.cost_usd)).sum)).sum_eq
  refine Eq.trans ?_ (Eq.trans hsum ?_)
  · rfl
  · exact sum_map_partition recordKey (·.cost_usd) _ l (List.nodup_dedup _)
      (fun a ha => List.mem_dedup.mpr (List.mem_map_of_mem recordKey ha))

theorem groupRows_requests_sum (l : List UsageRecord) :
    ((groupRows l).map (·.requests)).sum = l.length := by
  unfold groupRows
  rw [List.map_map]
  have hperm : (List.insertionSort (fun a b : ℕ × String => b.1 ≤ a.1)
      ((l.map recordKey).dedup)).Perm ((l.map recordKey).dedup) :=
    List.perm_insertionSort _ _
  have hsum := (hperm.map (fun k =>
    (l.filter (fun r => decide (recordKey r = k))).length)).sum_eq
  refine Eq.trans ?_ (Eq.trans hsum ?_)
  · rfl
  · exact length_filter_partition recordKey _ l (List.nodup_dedup _)
      (fun a ha => List.mem_dedup.mpr (List.mem_map_of_mem recordKey ha))

end CostDatabase

/-! ## Rounding lemmas -/

theorem roundHalfEven_nonneg (q : ℚ) (h : 0 ≤ q) : 0 ≤ roundHalfEven q := by
  unfold roundHalfEven
  have hf : 0 ≤ q.num.fdiv (q.den : ℤ) :=
    Int.fdiv_nonneg (Rat.num_nonneg.mpr h) (Int.natCast_nonneg _)
  dsimp only
  split
  · exact hf
  split
  · omega
  split
  · exact hf
  · omega

theorem round6_nonneg (q : ℚ) (h : 0 ≤ q) : 0 ≤ round6 q := by
  unfold round6
  have h1 : (0 : ℚ) ≤ (roundHalfEven (q * 1000000) : ℚ) := by
    exact_mod_cast roundHalfEven_nonneg _ (by positivity)
  exact div_nonneg h1 (by norm_num)

/-! ## Report shape lemmas -/

namespace CostDatabase

theorem get_report_eq (db : CostDatabase) (now : ℕ) (period : String)
    (tf : Option String) (h : period ∈ VALID_PERIODS) :
    get_report db now period tf = .ok
      { total_requests :=
          ((groupRows (filteredRecords db now period tf)).map (·.requests)).sum,
        total_cost_usd :=
          round6 (((groupRows (filteredRecords db now period tf)).map (·.cost)).sum),
        breakdown := (groupRows (filteredRecords db now period tf)).map (fun g =>
          { date := g.date, tool := g.tool, requests := g.requests,
            cost_usd := round6 g.cost }) } := by
  unfold get_report
  rw [if_pos h]

theorem get_report_ok (db : CostDatabase) (now : ℕ) (period : String)
    (tf : Option String) (h : period ∈ VALID_PERIODS) :
    ∃ r, get_report db now period tf = .ok r :=
  ⟨_, get_report_eq db now period tf h⟩

theorem get_report_invalid (db : CostDatabase) (now : ℕ) (period : String)
    (tf : Option String) (h : period ∉ VALID_PERIODS) :
    get_report db now period tf = .error (.valueError
      ("Invalid period \x27" ++ period ++ "\x27. Must be one of: today, week, month, all")) := by
  unfold get_report
  rw [if_neg h]

/-- Every cost appearing in a grouped row is a sum of recorded costs, so a
ledger of nonnegative costs yields a nonnegative report total. -/
theorem get_report_total_nonneg (db : CostDatabase) (now : ℕ) (period : String)
    (tf : Option String) (r : Report)
    (hcost : ∀ rec ∈ db.requests, 0 ≤ rec.cost_usd)
    (hr : get_report db now period tf = .ok r) : 0 ≤ r.total_cost_usd := by
  by_cases h : period ∈ VALID_PERIODS
  · rw [get_report_eq db now period tf h] at hr
    injection hr with hr
    subst hr
    apply round6_nonneg
    apply List.sum_nonneg
    intro x hx
    obtain ⟨g, hg, rfl⟩ := List.mem_map.mp hx
    unfold groupRows at hg
    obtain ⟨k, _, rfl⟩ := List.mem_map.mp hg
    apply List.sum_nonneg
    intro c hc
    obtain ⟨rec, hrec, rfl⟩ := List.mem_map.mp hc
    have h1 := (List.mem_filter.mp hrec).1
    have h2 := (List.mem_filter.mp h1).1
    exact hcost rec h2
  · rw [get_report_invalid db now period tf h] at hr
    exact absurd hr (by simp)

theorem check_cost_limit_eq (db : CostDatabase) (now : ℕ) (period : String)
    (limit : ℚ) (r : Report) (hr : get_report db now period none = .ok r) :
    check_cost_limit db now period limit = .ok (decide (r.total_cost_usd < limit)) := by
  unfold check_cost_limit
  rw [hr]

end CostDatabase

/-! ## Broker path lemmas -/

namespace GroveCoderServer

theorem handle_deepseek_daily_denied (secrets : Secrets) (db : CostDatabase)
    (now : ℕ) (net : NetOutcome) (af : Bool) (tool_name : String) (args : Args)
    (hd : CostDatabase.check_cost_limit db now "today" (dailyLimit secrets) = .ok false) :
    _handle_deepseek_call secrets db now net af tool_name args =
      .ok (.obj [("error", .str "Daily cost limit exceeded"),
                 ("limit_usd", .num (dailyLimit secrets))], db) := by
  unfold _handle_deepseek_call
  dsimp only
  rw [hd]
  rfl

theorem handle_deepseek_monthly_denied (secrets : Secrets) (db : CostDatabase)
    (now : ℕ) (net : NetOutcome) (af : Bool) (tool_name : String) (args : Args)
    (hd : CostDatabase.check_cost_limit db now "today" (dailyLimit secrets) = .ok true)
    (hm : CostDatabase.check_cost_limit db now "month" (monthlyLimit secrets) = .ok false) :
    _handle_deepseek_call secrets db now net af tool_name args =
      .ok (.obj [("error", .str "Monthly cost limit exceeded"),
                 ("limit_usd", .num (monthlyLimit secrets))], db) := by
  unfold _handle_deepseek_call
  dsimp only
  rw [hd, hm]
  rfl

theorem handle_deepseek_call_error (secrets : Secrets) (db : CostDatabase)
    (now : ℕ) (net : NetOutcome) (af : Bool) (tool_name : String) (args : Args)
    (e : PyErr)
    (hd : CostDatabase.check_cost_limit db now "today" (dailyLimit secrets) = .ok true)
    (hm : CostDatabase.check_cost_limit db now "month" (monthlyLimit secrets) = .ok true)
    (hc : DeepSeekClient.call net args tool_name = .error e) :
    _handle_deepseek_call secrets db now net af tool_name args =
      (if e.caughtByValueOrRuntime then .ok (.obj [("error", .str e.toMsg)], db)
       else .error e) := by
  unfold _handle_deepseek_call
  dsimp only
  rw [hd, hm, hc]
  rfl

theorem handle_deepseek_call_ok (secrets : Secrets) (db : CostDatabase)
    (now : ℕ) (net : NetOutcome) (af : Bool) (tool_name : String) (args : Args)
    (res : DeepSeekClient.CallResult)
    (hd : CostDatabase.check_cost_limit db now "today" (dailyLimit secrets) = .ok true)
    (hm : CostDatabase.check_cost_limit db now "month" (monthlyLimit secrets) = .ok true)
    (hc : DeepSeekClient.call net args tool_name = .ok res) :
    _handle_deepseek_call secrets db now net af tool_name args =
      (if af then .error (.sqliteError "unable to write to the requests table")
       else .ok (resultToJson res,
         db.log_request now tool_name res.cost_usd
           { input := some res.tokens_used.input,
             output := some res.tokens_used.output }
           args.file_path)) := by
  unfold _handle_deepseek_call
  dsimp only
  rw [hd, hm, hc]
  rfl

/-- The broker's behaviour depends on the HTTP exchange only through the
result of its single `DeepSeekClient.call` invocation: there is no second
attempt whose outcome could differ. -/
theorem handle_deepseek_single_call (secrets : Secrets) (db : CostDatabase)
    (now : ℕ) (net net' : NetOutcome) (af : Bool) (tool_name : String)
    (args : Args)
    (hsame : DeepSeekClient.call net' args tool_name =
             DeepSeekClient.call net args tool_name) :
    _handle_deepseek_call secrets db now net' af tool_name args =
      _handle_deepseek_call secrets db now net af tool_name args := by
  unfold _handle_deepseek_call
  rw [hsame]

end GroveCoderServer

/-! ## Sequences of logged calls (for the all-time totals property) -/

/-- The arguments of one `log_request` call. -/
structure LogCall where
  now : ℕ
  tool_name : String
  cost_usd : ℚ
  tokens : TokensDict := {}
  file_path : Option String := none

/-- The ledger row a single `log_request` call appends. -/
def LogCall.toRecord (c : LogCall) : UsageRecord :=
  { timestamp := c.now, tool_name := c.tool_name, cost_usd := c.cost_usd,
    input_tokens := c.tokens.input.getD (.num 0),
    output_tokens := c.tokens.output.getD (.num 0),
    file_path := c.file_path }

/-- Run a sequence of `log_request` calls. -/
def logAll (db : CostDatabase) (calls : List LogCall) : CostDatabase :=
  calls.foldl (fun d c =>
    d.log_request c.now c.tool_name c.cost_usd c.tokens c.file_path) db

theorem logAll_requests (calls : List LogCall) : ∀ db : CostDatabase,
    (logAll db calls).requests = db.requests ++ calls.map LogCall.toRecord := by
  induction calls with
  | nil => intro db; simp [logAll]
  | cons c t ih =>
    intro db
    have h1 : logAll db (c :: t) =
        logAll (db.log_request c.now c.tool_name c.cost_usd c.tokens c.file_path) t := rfl
    rw [h1, ih]
    simp [CostDatabase.log_request, LogCall.toRecord]

theorem filteredRecords_all (db : CostDatabase) (now : ℕ) :
    CostDatabase.filteredRecords db now "all" none = db.requests := by
  unfold CostDatabase.filteredRecords
  apply List.filter_eq_self.mpr
  intro a _
  simp [CostDatabase.startDate, CostDatabase.matchesFilter, SECONDS_PER_DAY]

/-! ## Concrete instances used by witnesses and counterexamples -/

/-- A ledger whose all-time spend is exactly 10 USD. -/
def ledgerAtLimit : CostDatabase :=
  { requests := [{ timestamp := 0, tool_name := "generate_code", cost_usd := 10,
                   input_tokens := .num 0, output_tokens := .num 0,
                   file_path := none }] }

/-- A configuration with a zero daily limit. -/
def secretsDailyZero : Secrets :=
  { cost_limits := some { daily_usd := some 0 } }

/-- A configuration with a zero monthly limit (daily limit left at the
default 10 USD). -/
def secretsMonthlyZero : Secrets :=
  { cost_limits := some { monthly_usd := some 0 } }

/-- Arguments for a small `generate_code` request. -/
def argsGen : Args :=
  { task_description := some "hi", language := some "python" }

/-- A well-formed upstream body whose decoded content is `{}` — valid JSON
that lacks the `"code"` field. -/
def bodyNoCode : String :=
  "\x7b\"choices\": [\x7b\"message\": \x7b\"content\": \"\x7b\x7d\"\x7d\x7d], \"usage\": \x7b\"prompt_tokens\": 100, \"completion_tokens\": 50\x7d\x7d"

/-! ## Claim theorems -/

/-- Claim C1, counterexample.  On a ledger whose all-time spend equals the
limit exactly (10 USD spend, 10 USD limit), `check_cost_limit` returns
`False` (treated as exceeded), refuting the claim that spend equal to the
limit yields `True`. -/
theorem C1_counterexample :
    (CostDatabase.get_report ledgerAtLimit 0 "all" none).map
        CostDatabase.Report.total_cost_usd = .ok 10 ∧
    CostDatabase.check_cost_limit ledgerAtLimit 0 "all" 10 = .ok false := by
  constructor <;> with_unfolding_all rfl

/-- Claim C1, amended.  For every ledger state and every recognized window,
`check_cost_limit` returns `True` iff the aggregated (reported) spend is
strictly less than the limit; when the aggregated spend equals the limit
exactly it returns `False` (the boundary blocks). -/
theorem C1_strict_inequality (db : CostDatabase) (now : ℕ) (period : String)
    (limit : ℚ) (h : period ∈ VALID_PERIODS) :
    ∃ r, CostDatabase.get_report db now period none = .ok r ∧
      (CostDatabase.check_cost_limit db now period limit = .ok true ↔
        r.total_cost_usd < limit) ∧
      (r.total_cost_usd = limit →
        CostDatabase.check_cost_limit db now period limit = .ok false) := by
  obtain ⟨r, hr⟩ := CostDatabase.get_report_ok db now period none h
  refine ⟨r, hr, ?_, ?_⟩
  · rw [CostDatabase.check_cost_limit_eq db now period limit r hr]
    constructor
    · intro hok
      injection hok with hb
      exact of_decide_eq_true hb
    · intro hlt
      rw [decide_eq_true hlt]
  · intro heq
    rw [CostDatabase.check_cost_limit_eq db now period limit r hr, heq]
    norm_num

/-- Claim C1, witness for the amended theorem at the boundary ledger. -/
theorem C1_strict_inequality_witness :
    "all" ∈ VALID_PERIODS ∧
    (∃ r, CostDatabase.get_report ledgerAtLimit 0 "all" none = .ok r ∧
      (CostDatabase.check_cost_limit ledgerAtLimit 0 "all" 10 = .ok true ↔
        r.total_cost_usd < 10) ∧
      (r.total_cost_usd = 10 →
        CostDatabase.check_cost_limit ledgerAtLimit 0 "all" 10 = .ok false)) :=
  ⟨by decide, C1_strict_inequality ledgerAtLimit 0 "all" 10 (by decide)⟩

/-- Claim C2.  The broker evaluates the daily check first: if it fails the
response is the daily-denial payload (naming the daily limit), for every
network oracle and storage oracle, with the ledger unchanged; if the daily
check passes and the monthly check fails, the response is the
monthly-denial payload, again with no upstream dependence and no ledger
write. -/
theorem C2_admission_gate (secrets : Secrets) (db : CostDatabase) (now : ℕ)
    (net : NetOutcome) (af : Bool) (tool_name : String) (args : Args) :
    (CostDatabase.check_cost_limit db now "today"
        (GroveCoderServer.dailyLimit secrets) = .ok false →
      GroveCoderServer._handle_deepseek_call secrets db now net af tool_name args =
        .ok (.obj [("error", .str "Daily cost limit exceeded"),
                   ("limit_usd", .num (GroveCoderServer.dailyLimit secrets))], db)) ∧
    (CostDatabase.check_cost_limit db now "today"
        (GroveCoderServer.dailyLimit secrets) = .ok true →
      CostDatabase.check_cost_limit db now "month"
        (GroveCoderServer.monthlyLimit secrets) = .ok false →
      GroveCoderServer._handle_deepseek_call secrets db now net af tool_name args =
        .ok (.obj [("error", .str "Monthly cost limit exceeded"),
                   ("limit_usd", .num (GroveCoderServer.monthlyLimit secrets))], db)) := by
  constructor
  · intro hd
    exact GroveCoderServer.handle_deepseek_daily_denied secrets db now net af tool_name args hd
  · intro hd hm
    exact GroveCoderServer.handle_deepseek_monthly_denied secrets db now net af tool_name args hd hm

/-- Claim C2, witness: a zero daily limit denies with the daily payload; a
zero monthly limit (with the default daily limit passing) denies with the
monthly payload — both on an empty ledger, leaving it empty. -/
theorem C2_admission_gate_witness :
    (CostDatabase.check_cost_limit {} 0 "today"
        (GroveCoderServer.dailyLimit secretsDailyZero) = .ok false ∧
      GroveCoderServer._handle_deepseek_call secretsDailyZero {} 0 .requestError
          false "generate_code" argsGen =
        .ok (.obj [("error", .str "Daily cost limit exceeded"),
                   ("limit_usd", .num (GroveCoderServer.dailyLimit secretsDailyZero))], {})) ∧
    (CostDatabase.check_cost_limit {} 0 "today"
        (GroveCoderServer.dailyLimit secretsMonthlyZero) = .ok true ∧
      CostDatabase.check_cost_limit {} 0 "month"
        (GroveCoderServer.monthlyLimit secretsMonthlyZero) = .ok false ∧
      GroveCoderServer._handle_deepseek_call secretsMonthlyZero {} 0 .requestError
          false "generate_code" argsGen =
        .ok (.obj [("error", .str "Monthly cost limit exceeded"),
                   ("limit_usd", .num (GroveCoderServer.monthlyLimit secretsMonthlyZero))], {})) := by
  have hd0 : CostDatabase.check_cost_limit {} 0 "today"
      (GroveCoderServer.dailyLimit secretsDailyZero) = .ok false := by
    with_unfolding_all rfl
  have hd1 : CostDatabase.check_cost_limit {} 0 "today"
      (GroveCoderServer.dailyLimit secretsMonthlyZero) = .ok true := by
    with_unfolding_all rfl
  have hm1 : CostDatabase.check_cost_limit {} 0 "month"
      (GroveCoderServer.monthlyLimit secretsMonthlyZero) = .ok false := by
    with_unfolding_all rfl
  exact ⟨⟨hd0, (C2_admission_gate secretsDailyZero {} 0 .requestError false
      "generate_code" argsGen).1 hd0⟩,
    ⟨hd1, hm1, (C2_admission_gate secretsMonthlyZero {} 0 .requestError false
      "generate_code" argsGen).2 hd1 hm1⟩⟩

/-- Claim C3.  For every sequence of logged calls starting from an empty
ledger: the stored costs are the passed costs unchanged (no rounding at
storage time), and the all-time report's total equals `round(Σ cᵢ, 6)`
(rounded once, at reporting time) with record count `N`. -/
theorem C3_alltime_totals (calls : List LogCall) (now : ℕ) :
    (logAll {} calls).requests.map (·.cost_usd) = calls.map (·.cost_usd) ∧
    ∃ r, CostDatabase.get_report (logAll {} calls) now "all" none = .ok r ∧
      r.total_cost_usd = round6 ((calls.map (·.cost_usd)).sum) ∧
      r.total_requests = calls.length := by
  have hreq : (logAll {} calls).requests = calls.map LogCall.toRecord := by
    rw [logAll_requests]
    rfl
  have hcost : (logAll {} calls).requests.map (·.cost_usd) = calls.map (·.cost_usd) := by
    rw [hreq, List.map_map]
    rfl
  refine ⟨hcost, ?_⟩
  refine ⟨_, CostDatabase.get_report_eq _ now "all" none (by decide), ?_, ?_⟩
  · dsimp only
    rw [filteredRecords_all, CostDatabase.groupRows_cost_sum, hcost]
  · dsimp only
    rw [filteredRecords_all, CostDatabase.groupRows_requests_sum, hreq,
      List.length_map]

/-- Claim C4.  The computed cost is exactly
`round(inputTokens/1e6 * 0.25 + outputTokens/1e6 * 0.38, 6)` for every
usage block with numeric token counts; in particular one million input plus
one million output tokens cost exactly 0.63 USD, and zero tokens (explicit
or absent) cost exactly 0. -/
theorem C4_cost_formula :
    (∀ i o : ℕ, DeepSeekClient._calculate_cost
        (.obj [("prompt_tokens", .num i), ("completion_tokens", .num o)]) =
      .ok (round6 ((i : ℚ) / 1000000 * 0.25 + (o : ℚ) / 1000000 * 0.38))) ∧
    DeepSeekClient._calculate_cost
        (.obj [("prompt_tokens", .num 1000000),
               ("completion_tokens", .num 1000000)]) = .ok 0.63 ∧
    DeepSeekClient._calculate_cost
        (.obj [("prompt_tokens", .num 0), ("completion_tokens", .num 0)]) = .ok 0 ∧
    DeepSeekClient._calculate_cost (.obj []) = .ok 0 := by
  refine ⟨?_, ?_, ?_, ?_⟩
  · intro i o
    with_unfolding_all rfl
  · with_unfolding_all rfl
  · with_unfolding_all rfl
  · with_unfolding_all rfl

theorem exceptBind_ok {e a b : Type} (x : a) (f : a → Except e b) :
    (Except.ok x >>= f) = f x := rfl

theorem exceptBind_error {e a b : Type} (err : e) (f : a → Except e b) :
    ((Except.error err : Except e a) >>= f) = .error err := rfl

/-- A decoded body that does not have the expected JSON shape in a way the
client's `try` block catches: the `choices[0].message.content` chain fails
with `KeyError`/`IndexError`, or the content string is not valid JSON. -/
def unparseableShape (data : Json) : Prop :=
  match DeepSeekClient.extractContent data with
  | .error (.keyError _) => True
  | .error .indexError => True
  | .ok (.str s) => parseJson s = none
  | _ => False

theorem parseContent_unparseable (data : Json) (hbad : unparseableShape data) :
    DeepSeekClient.parseContent data =
      .error (.runtimeError "DeepSeek returned an unparseable response") := by
  have hbad' := hbad
  unfold unparseableShape at hbad'
  unfold DeepSeekClient.parseContent
  cases hext : DeepSeekClient.extractContent data with
  | error e =>
    cases e with
    | keyError k => rfl
    | indexError => rfl
    | valueError m => simp only [hext] at hbad'
    | runtimeError m => simp only [hext] at hbad'
    | jsonDecodeError m => simp only [hext] at hbad'
    | typeError => simp only [hext] at hbad'
    | attributeError => simp only [hext] at hbad'
    | sqliteError m => simp only [hext] at hbad'
  | ok j =>
    cases j with
    | str s =>
      simp only [hext] at hbad'
      dsimp only
      rw [exceptBind_ok]
      dsimp only
      rw [hbad']
    | null => simp only [hext] at hbad'
    | bool b => simp only [hext] at hbad'
    | num q => simp only [hext] at hbad'
    | arr xs => simp only [hext] at hbad'
    | obj fs => simp only [hext] at hbad'

/-- Claim C5, amended theorem.  For every admissible request and every 2xx
response whose body decodes to JSON, if the expected shape is violated in a
way the client's `try` block covers — the `choices[0].message.content`
chain fails, or the content string is not valid JSON — then `call` fails
with the unparseable-response error.  (A content that decodes to a JSON
object merely lacking the `"code"` field does *not* fail; see the
counterexample.) -/
theorem C5_unparseable_shapes (args : Args) (tool_name : String) (status : ℕ)
    (body : String) (data : Json)
    (hv : DeepSeekClient._validate_inputs args = .ok ())
    (hp : ∃ p, DeepSeekClient._build_user_prompt args tool_name = .ok p)
    (hs : 200 ≤ status ∧ status < 300)
    (hb : parseJson body = some data)
    (hbad : unparseableShape data) :
    DeepSeekClient.call (.response status body) args tool_name =
      .error (.runtimeError "DeepSeek returned an unparseable response") := by
  obtain ⟨p, hp⟩ := hp
  have hstat : ¬ (status < 200 ∨ 300 ≤ status) := by omega
  unfold DeepSeekClient.call
  rw [hv, exceptBind_ok]
  try dsimp only
  rw [hp, exceptBind_ok]
  try dsimp only
  rw [if_neg hstat, hb]
  try dsimp only
  rw [parseContent_unparseable data hbad, exceptBind_error]

/-- Claim C5, counterexample.  A 2xx response whose content decodes to the
JSON object `{}` — which lacks the `"code"` field — does not fail with an
unparseable-response error: `call` returns a success result with an empty
code string. -/
theorem C5_counterexample :
    DeepSeekClient.call (.response 200 bodyNoCode) argsGen "generate_code" =
      .ok { code := .str "", explanation := .str "", suggestions := .arr [],
            cost_usd := 44 / 1000000,
            tokens_used := { input := .num 100, output := .num 50 } } := by
  with_unfolding_all rfl

/-- Claim C5, witness for the amended theorem: the body `{}` decodes but
has no `choices` key, and the call fails with the unparseable-response
error. -/
theorem C5_unparseable_shapes_witness :
    (DeepSeekClient._validate_inputs argsGen = .ok () ∧
     (∃ p, DeepSeekClient._build_user_prompt argsGen "generate_code" = .ok p) ∧
     ((200 : ℕ) ≤ 200 ∧ (200 : ℕ) < 300) ∧
     parseJson "\x7b\x7d" = some (.obj []) ∧
     unparseableShape (.obj [])) ∧
    DeepSeekClient.call (.response 200 "\x7b\x7d") argsGen "generate_code" =
      .error (.runtimeError "DeepSeek returned an unparseable response") := by
  have hsh : unparseableShape (.obj []) := by
    unfold unparseableShape
    exact trivial
  refine ⟨⟨by with_unfolding_all rfl, ⟨_, by with_unfolding_all rfl⟩,
    by norm_num, by with_unfolding_all rfl, hsh⟩, ?_⟩
  exact C5_unparseable_shapes argsGen "generate_code" 200 "\x7b\x7d" (.obj [])
    (by with_unfolding_all rfl) ⟨_, by with_unfolding_all rfl⟩ (by norm_num)
    (by with_unfolding_all rfl) hsh

/-- Claim C6, amended theorem.  For every report request naming an
unrecognized window, the call fails with the invalid-window `ValueError`
before any store access (the outcome is identical for every ledger state),
but the broker does not convert it into a structured error payload: the
`ValueError` escapes `_handle_cost_report` uncaught. -/
theorem C6_invalid_window_escapes (db : CostDatabase) (now : ℕ)
    (args : GroveCoderServer.ReportArgs) (period : String)
    (hp : args.period = some period) (hinv : period ∉ VALID_PERIODS) :
    GroveCoderServer._handle_cost_report db now args =
      .error (.valueError ("Invalid period \x27" ++ period ++
        "\x27. Must be one of: today, week, month, all")) ∧
    (∀ db' : CostDatabase, GroveCoderServer._handle_cost_report db' now args =
      GroveCoderServer._handle_cost_report db now args) := by
  have key : ∀ d : CostDatabase, GroveCoderServer._handle_cost_report d now args =
      .error (.valueError ("Invalid period \x27" ++ period ++
        "\x27. Must be one of: today, week, month, all")) := by
    intro d
    unfold GroveCoderServer._handle_cost_report
    dsimp only
    rw [hp]
    simp only [Option.getD_some]
    rw [CostDatabase.get_report_invalid d now period args.tool hinv,
      exceptBind_error]
  exact ⟨key db, fun db' => (key db').trans (key db).symm⟩

/-- Claim C6, counterexample.  The concrete window `"decade"` makes the
broker's report handler terminate with an uncaught `ValueError` (an
escaping exception, not a structured error payload). -/
theorem C6_counterexample :
    GroveCoderServer._handle_cost_report {} 0 { period := some "decade" } =
      .error (.valueError
        "Invalid period \x27decade\x27. Must be one of: today, week, month, all") := by
  with_unfolding_all rfl

/-- Claim C6, witness for the amended theorem at the window `"decade"`. -/
theorem C6_invalid_window_escapes_witness :
    (({ period := some "decade" } : GroveCoderServer.ReportArgs).period =
        some "decade" ∧ "decade" ∉ VALID_PERIODS) ∧
    (GroveCoderServer._handle_cost_report {} 0 { period := some "decade" } =
      .error (.valueError ("Invalid period \x27" ++ "decade" ++
        "\x27. Must be one of: today, week, month, all")) ∧
    (∀ db' : CostDatabase,
      GroveCoderServer._handle_cost_report db' 0 { period := some "decade" } =
      GroveCoderServer._handle_cost_report {} 0 { period := some "decade" })) :=
  ⟨⟨rfl, by decide⟩,
   C6_invalid_window_escapes {} 0 { period := some "decade" } "decade" rfl (by decide)⟩

theorem call_validate_error (net : NetOutcome) (args : Args) (tool_name : String)
    (e : PyErr) (h : DeepSeekClient._validate_inputs args = .error e) :
    DeepSeekClient.call net args tool_name = .error e := by
  unfold DeepSeekClient.call
  rw [h, exceptBind_error]

/-- Claim C7.  Whenever a large free-text field (`code`, `original_code`,
`context`) exceeds 100,000 characters or a short free-text field
(`task_description`, `change_request`) exceeds 10,000 characters, the
upstream call fails (for every network oracle — nothing is sent) with a
`ValueError` naming a violating field and its class limit; and, when the
admission checks pass, the broker answers with the corresponding error
payload and appends no ledger record. -/
theorem C7_oversized_field_rejected (secrets : Secrets) (db : CostDatabase)
    (now : ℕ) (net : NetOutcome) (af : Bool) (tool_name : String) (args : Args)
    (h : DeepSeekClient.fieldTooLong args.code MAX_CODE_LENGTH = true ∨
         DeepSeekClient.fieldTooLong args.original_code MAX_CODE_LENGTH = true ∨
         DeepSeekClient.fieldTooLong args.context MAX_CODE_LENGTH = true ∨
         DeepSeekClient.fieldTooLong args.task_description MAX_DESCRIPTION_LENGTH = true ∨
         DeepSeekClient.fieldTooLong args.change_request MAX_DESCRIPTION_LENGTH = true) :
    ∃ f L,
      ((f = "code" ∨ f = "original_code" ∨ f = "context") ∧ L = MAX_CODE_LENGTH ∨
       (f = "task_description" ∨ f = "change_request") ∧ L = MAX_DESCRIPTION_LENGTH) ∧
      DeepSeekClient._validate_inputs args = .error (.valueError
        (f ++ " exceeds maximum length of " ++ toString L ++ " characters")) ∧
      DeepSeekClient.call net args tool_name = .error (.valueError
        (f ++ " exceeds maximum length of " ++ toString L ++ " characters")) ∧
      (CostDatabase.check_cost_limit db now "today"
          (GroveCoderServer.dailyLimit secrets) = .ok true →
       CostDatabase.check_cost_limit db now "month"
          (GroveCoderServer.monthlyLimit secrets) = .ok true →
       GroveCoderServer._handle_deepseek_call secrets db now net af tool_name args =
         .ok (.obj [("error", .str
           (f ++ " exceeds maximum length of " ++ toString L ++ " characters"))], db)) := by
  have finish : ∀ msg : String,
      DeepSeekClient._validate_inputs args = .error (.valueError msg) →
      DeepSeekClient.call net args tool_name = .error (.valueError msg) ∧
      (CostDatabase.check_cost_limit db now "today"
          (GroveCoderServer.dailyLimit secrets) = .ok true →
       CostDatabase.check_cost_limit db now "month"
          (GroveCoderServer.monthlyLimit secrets) = .ok true →
       GroveCoderServer._handle_deepseek_call secrets db now net af tool_name args =
         .ok (.obj [("error", .str msg)], db)) := by
    intro msg hv
    have hc := call_validate_error net args tool_name _ hv
    refine ⟨hc, fun hd hm => ?_⟩
    rw [GroveCoderServer.handle_deepseek_call_error secrets db now net af
      tool_name args _ hd hm hc]
    rfl
  by_cases h1 : DeepSeekClient.fieldTooLong args.code MAX_CODE_LENGTH = true
  · have hv : DeepSeekClient._validate_inputs args = .error (.valueError
        ("code" ++ " exceeds maximum length of " ++ toString MAX_CODE_LENGTH ++ " characters")) := by
      unfold DeepSeekClient._validate_inputs
      rw [if_pos h1]
      with_unfolding_all rfl
    obtain ⟨hc, hh⟩ := finish _ hv
    exact ⟨"code", MAX_CODE_LENGTH, Or.inl ⟨Or.inl rfl, rfl⟩, hv, hc, hh⟩
  · by_cases h2 : DeepSeekClient.fieldTooLong args.original_code MAX_CODE_LENGTH = true
    · have hv : DeepSeekClient._validate_inputs args = .error (.valueError
          ("original_code" ++ " exceeds maximum length of " ++ toString MAX_CODE_LENGTH ++ " characters")) := by
        unfold DeepSeekClient._validate_inputs
        rw [if_neg h1, if_pos h2]
        with_unfolding_all rfl
      obtain ⟨hc, hh⟩ := finish _ hv
      exact ⟨"original_code", MAX_CODE_LENGTH, Or.inl ⟨Or.inr (Or.inl rfl), rfl⟩, hv, hc, hh⟩
    · by_cases h3 : DeepSeekClient.fieldTooLong args.context MAX_CODE_LENGTH = true
      · have hv : DeepSeekClient._validate_inputs args = .error (.valueError
            ("context" ++ " exceeds maximum length of " ++ toString MAX_CODE_LENGTH ++ " characters")) := by
          unfold DeepSeekClient._validate_inputs
          rw [if_neg h1, if_neg h2, if_pos h3]
          with_unfolding_all rfl
        obtain ⟨hc, hh⟩ := finish _ hv
        exact ⟨"context", MAX_CODE_LENGTH, Or.inl ⟨Or.inr (Or.inr rfl), rfl⟩, hv, hc, hh⟩
      · by_cases h4 : DeepSeekClient.fieldTooLong args.task_description MAX_DESCRIPTION_LENGTH = true
        · have hv : DeepSeekClient._validate_inputs args = .error (.valueError
              ("task_description" ++ " exceeds maximum length of " ++ toString MAX_DESCRIPTION_LENGTH ++ " characters")) := by
            unfold DeepSeekClient._validate_inputs
            rw [if_neg h1, if_neg h2, if_neg h3, if_pos h4]
            with_unfolding_all rfl
          obtain ⟨hc, hh⟩ := finish _ hv
          exact ⟨"task_description", MAX_DESCRIPTION_LENGTH, Or.inr ⟨Or.inl rfl, rfl⟩, hv, hc, hh⟩
        · by_cases h5 : DeepSeekClient.fieldTooLong args.change_request MAX_DESCRIPTION_LENGTH = true
          · have hv : DeepSeekClient._validate_inputs args = .error (.valueError
                ("change_request" ++ " exceeds maximum length of " ++ toString MAX_DESCRIPTION_LENGTH ++ " characters")) := by
              unfold DeepSeekClient._validate_inputs
              rw [if_neg h1, if_neg h2, if_neg h3, if_neg h4, if_pos h5]
              with_unfolding_all rfl
            obtain ⟨hc, hh⟩ := finish _ hv
            exact ⟨"change_request", MAX_DESCRIPTION_LENGTH, Or.inr ⟨Or.inr rfl, rfl⟩, hv, hc, hh⟩
          · rcases h with h | h | h | h | h <;> contradiction

/-- A 100,001-character `code` argument. -/
def bigCode : String := String.mk (List.replicate 100001 'x')

def argsBig : Args := { code := some bigCode }

theorem bigCode_too_long :
    DeepSeekClient.fieldTooLong argsBig.code MAX_CODE_LENGTH = true := by
  have hlen : bigCode.length = 100001 := by
    unfold bigCode
    rw [String.length_mk, List.length_replicate]
  unfold DeepSeekClient.fieldTooLong argsBig
  simp only [Option.getD_some]
  rw [decide_eq_true_eq]
  constructor
  · intro heq
    have h0 := congrArg String.length heq
    rw [hlen] at h0
    exact absurd h0 (by decide)
  · rw [hlen]
    norm_num [MAX_CODE_LENGTH]

/-- Claim C7, witness: an oversized `code` field on an empty ledger with
default limits. -/
theorem C7_oversized_field_rejected_witness :
    DeepSeekClient.fieldTooLong argsBig.code MAX_CODE_LENGTH = true ∧
    (∃ f L,
      ((f = "code" ∨ f = "original_code" ∨ f = "context") ∧ L = MAX_CODE_LENGTH ∨
       (f = "task_description" ∨ f = "change_request") ∧ L = MAX_DESCRIPTION_LENGTH) ∧
      DeepSeekClient._validate_inputs argsBig = .error (.valueError
        (f ++ " exceeds maximum length of " ++ toString L ++ " characters")) ∧
      DeepSeekClient.call .requestError argsBig "review_code" = .error (.valueError
        (f ++ " exceeds maximum length of " ++ toString L ++ " characters")) ∧
      (CostDatabase.check_cost_limit {} 0 "today"
          (GroveCoderServer.dailyLimit {}) = .ok true →
       CostDatabase.check_cost_limit {} 0 "month"
          (GroveCoderServer.monthlyLimit {}) = .ok true →
       GroveCoderServer._handle_deepseek_call {} {} 0 .requestError false
           "review_code" argsBig =
         .ok (.obj [("error", .str
           (f ++ " exceeds maximum length of " ++ toString L ++ " characters"))], {}))) :=
  ⟨bigCode_too_long,
   C7_oversized_field_rejected {} {} 0 .requestError false "review_code" argsBig
     (Or.inl bigCode_too_long)⟩

/-- Claim C8, counterexample.  With a successful upstream exchange and a
failing ledger append, the broker's handler terminates with the uncaught
`sqlite3.Error` — an escaping exception, not a structured error payload —
refuting "neither silently swallowed nor allowed to escape as an unhandled
fault". -/
theorem C8_counterexample :
    GroveCoderServer._handle_deepseek_call {} {} 0 (.response 200 bodyNoCode)
        true "generate_code" argsGen =
      .error (.sqliteError "unable to write to the requests table") := by
  with_unfolding_all rfl

/-- Claim C8, amended theorem.  When the upstream call succeeds and the
subsequent ledger append fails, the storage exception propagates out of the
broker's handler uncaught (it is not converted to a structured payload and
not swallowed), and the upstream call is not re-attempted: the handler's
outcome depends on the network oracle only through the single
`DeepSeekClient.call` result. -/
theorem C8_append_failure_escapes (secrets : Secrets) (db : CostDatabase)
    (now : ℕ) (net : NetOutcome) (tool_name : String) (args : Args)
    (res : DeepSeekClient.CallResult)
    (hd : CostDatabase.check_cost_limit db now "today"
        (GroveCoderServer.dailyLimit secrets) = .ok true)
    (hm : CostDatabase.check_cost_limit db now "month"
        (GroveCoderServer.monthlyLimit secrets) = .ok true)
    (hc : DeepSeekClient.call net args tool_name = .ok res) :
    GroveCoderServer._handle_deepseek_call secrets db now net true tool_name args =
      .error (.sqliteError "unable to write to the requests table") ∧
    (∀ net' : NetOutcome,
      DeepSeekClient.call net' args tool_name = DeepSeekClient.call net args tool_name →
      GroveCoderServer._handle_deepseek_call secrets db now net' true tool_name args =
        GroveCoderServer._handle_deepseek_call secrets db now net true tool_name args) := by
  constructor
  · rw [GroveCoderServer.handle_deepseek_call_ok secrets db now net true
      tool_name args res hd hm hc]
    rfl
  · intro net' hsame
    exact GroveCoderServer.handle_deepseek_single_call secrets db now net net'
      true tool_name args hsame

/-- The normalized result of the `bodyNoCode` exchange. -/
def resNoCode : DeepSeekClient.CallResult :=
  { code := .str "", explanation := .str "", suggestions := .arr [],
    cost_usd := 44 / 1000000,
    tokens_used := { input := .num 100, output := .num 50 } }

/-- Claim C8, witness for the amended theorem: empty ledger, default
limits, a successful 200 exchange, and a failing append. -/
theorem C8_append_failure_escapes_witness :
    (CostDatabase.check_cost_limit {} 0 "today"
        (GroveCoderServer.dailyLimit {}) = .ok true ∧
     CostDatabase.check_cost_limit {} 0 "month"
        (GroveCoderServer.monthlyLimit {}) = .ok true ∧
     DeepSeekClient.call (.response 200 bodyNoCode) argsGen "generate_code" =
        .ok resNoCode) ∧
    (GroveCoderServer._handle_deepseek_call {} {} 0 (.response 200 bodyNoCode)
        true "generate_code" argsGen =
      .error (.sqliteError "unable to write to the requests table") ∧
    (∀ net' : NetOutcome,
      DeepSeekClient.call net' argsGen "generate_code" =
        DeepSeekClient.call (.response 200 bodyNoCode) argsGen "generate_code" →
      GroveCoderServer._handle_deepseek_call {} {} 0 net' true "generate_code" argsGen =
        GroveCoderServer._handle_deepseek_call {} {} 0 (.response 200 bodyNoCode)
          true "generate_code" argsGen)) := by
  have hd : CostDatabase.check_cost_limit {} 0 "today"
      (GroveCoderServer.dailyLimit {}) = .ok true := by with_unfolding_all rfl
  have hm : CostDatabase.check_cost_limit {} 0 "month"
      (GroveCoderServer.monthlyLimit {}) = .ok true := by with_unfolding_all rfl
  have hc : DeepSeekClient.call (.response 200 bodyNoCode) argsGen "generate_code" =
      .ok resNoCode := by with_unfolding_all rfl
  exact ⟨⟨hd, hm, hc⟩,
    C8_append_failure_escapes {} {} 0 (.response 200 bodyNoCode) "generate_code"
      argsGen resNoCode hd hm hc⟩

/-- Claim C9.  On any ledger of nonnegative costs (including the empty
ledger), `check_cost_limit` with a non-positive limit returns `False` for
every recognized window; consequently a broker with a non-positive daily
limit answers every generate/edit/review request with the daily denial, and
one with a non-positive monthly limit denies every request with one of the
two denial payloads — in all cases with no upstream dependence and the
ledger unchanged. -/
theorem C9_nonpositive_limit_denies (db : CostDatabase) (now : ℕ)
    (hcost : ∀ rec ∈ db.requests, 0 ≤ rec.cost_usd) :
    (∀ period ∈ VALID_PERIODS, ∀ limit : ℚ, limit ≤ 0 →
      CostDatabase.check_cost_limit db now period limit = .ok false) ∧
    (∀ (secrets : Secrets) (net : NetOutcome) (af : Bool) (tool_name : String)
        (args : Args), GroveCoderServer.dailyLimit secrets ≤ 0 →
      GroveCoderServer._handle_deepseek_call secrets db now net af tool_name args =
        .ok (.obj [("error", .str "Daily cost limit exceeded"),
                   ("limit_usd", .num (GroveCoderServer.dailyLimit secrets))], db)) ∧
    (∀ (secrets : Secrets) (net : NetOutcome) (af : Bool) (tool_name : String)
        (args : Args), GroveCoderServer.monthlyLimit secrets ≤ 0 →
      ∃ payload,
        GroveCoderServer._handle_deepseek_call secrets db now net af tool_name args =
          .ok (payload, db) ∧
        (payload = .obj [("error", .str "Daily cost limit exceeded"),
                  ("limit_usd", .num (GroveCoderServer.dailyLimit secrets))] ∨
         payload = .obj [("error", .str "Monthly cost limit exceeded"),
                  ("limit_usd", .num (GroveCoderServer.monthlyLimit secrets))])) := by
  have hcheck : ∀ period ∈ VALID_PERIODS, ∀ limit : ℚ, limit ≤ 0 →
      CostDatabase.check_cost_limit db now period limit = .ok false := by
    intro period hper limit hlim
    obtain ⟨r, hr⟩ := CostDatabase.get_report_ok db now period none hper
    have hnn : 0 ≤ r.total_cost_usd :=
      CostDatabase.get_report_total_nonneg db now period none r hcost hr
    rw [CostDatabase.check_cost_limit_eq db now period limit r hr]
    rw [decide_eq_false (not_lt.mpr (le_trans hlim hnn))]
  refine ⟨hcheck, ?_, ?_⟩
  · intro secrets net af tool_name args hdl
    exact GroveCoderServer.handle_deepseek_daily_denied secrets db now net af
      tool_name args (hcheck "today" (by decide) _ hdl)
  · intro secrets net af tool_name args hml
    obtain ⟨r, hr⟩ := CostDatabase.get_report_ok db now "today" none (by decide)
    have hd := CostDatabase.check_cost_limit_eq db now "today"
      (GroveCoderServer.dailyLimit secrets) r hr
    cases hb : decide (r.total_cost_usd < GroveCoderServer.dailyLimit secrets) with
    | false =>
      rw [hb] at hd
      exact ⟨_, GroveCoderServer.handle_deepseek_daily_denied secrets db now net
        af tool_name args hd, Or.inl rfl⟩
    | true =>
      rw [hb] at hd
      exact ⟨_, GroveCoderServer.handle_deepseek_monthly_denied secrets db now
        net af tool_name args hd (hcheck "month" (by decide) _ hml), Or.inr rfl⟩

/-- Claim C9, witness: empty ledger, zero daily limit. -/
theorem C9_nonpositive_limit_denies_witness :
    (∀ rec ∈ ({} : CostDatabase).requests, 0 ≤ rec.cost_usd) ∧
    CostDatabase.check_cost_limit {} 0 "today" 0 = .ok false ∧
    GroveCoderServer._handle_deepseek_call secretsDailyZero {} 0 .requestError
        false "generate_code" argsGen =
      .ok (.obj [("error", .str "Daily cost limit exceeded"),
                 ("limit_usd", .num (GroveCoderServer.dailyLimit secretsDailyZero))], {}) := by
  have hcost : ∀ rec ∈ ({} : CostDatabase).requests, 0 ≤ rec.cost_usd := by
    intro rec hrec
    simp only [List.not_mem_nil] at hrec
  obtain ⟨h1, h2, _⟩ := C9_nonpositive_limit_denies {} 0 hcost
  exact ⟨hcost, h1 "today" (by decide) 0 le_rfl,
    h2 secretsDailyZero .requestError false "generate_code" argsGen
      (by with_unfolding_all decide)⟩

/-- Claim C10.  A cost-report call whose arguments omit `period` entirely
behaves exactly like one requesting the `"today"` window — it succeeds
(never an invalid-window error) for every ledger state — even though the
declared schema for `get_cost_report` lists `period` as required. -/
theorem C10_omitted_period_defaults (db : CostDatabase) (now : ℕ)
    (tool : Option String) :
    GroveCoderServer._handle_cost_report db now { period := none, tool := tool } =
      GroveCoderServer._handle_cost_report db now
        { period := some "today", tool := tool } ∧
    (∃ j, GroveCoderServer._handle_cost_report db now
        { period := none, tool := tool } = .ok j) ∧
    (_build_tool_list.filter (fun t => t.name = "get_cost_report")).map
        (·.required) = [["period"]] := by
  refine ⟨rfl, ?_, by with_unfolding_all rfl⟩
  obtain ⟨r, hr⟩ := CostDatabase.get_report_ok db now "today" tool (by decide)
  refine ⟨GroveCoderServer.reportToJson r, ?_⟩
  unfold GroveCoderServer._handle_cost_report
  dsimp only
  rw [show (Option.getD (none : Option String) "today") = "today" from rfl, hr,
    exceptBind_ok]
